import Mathlib

/-!
Verification of the rusty-shark dissection core (src/lib.rs).

Shallow embedding of the value model, error model, primitive integer
decoders, tree renderer and fallback dissector of the `rshark` library.
Bytes are modelled as `Nat` (each `< 256` where it matters), machine
integers as `Nat`/`Int` with explicit width bounds, and fallible Rust
`Result` values as `Except`.
-/

namespace RShark

/-- Embedding of `enum Error` (src/lib.rs lines 212-215): `Underflow`
carries expected/actual byte counts and a subject, `InvalidData` a
free-text message. (`have` is a Lean keyword, so the field is `hve`.) -/
inductive Error where
  | Underflow (expected : Nat) (hve : Nat) (subject : String)
  | InvalidData (msg : String)
  deriving DecidableEq, Repr

/-- Embedding of `impl fmt::Display for Error` (lines 232-241):
`write![f, "underflow: {} expected {} B, have {}", subject, expect, have]`
and `write![f, "invalid data: {}", msg]`. -/
def Error.display : Error → String
  | .Underflow expected hve subject =>
      "underflow: " ++ subject ++ " expected " ++ toString expected
        ++ " B, have " ++ toString hve
  | .InvalidData msg => "invalid data: " ++ msg

/-- Embedding of `enum Val` (lines 94-122).  Rust static strings and
`String` are both Lean `String`; `Vec<u8>` is `List Nat`.  The Rust
constructors `String` and `Error` are renamed `Str` and `Err` to avoid
clashing with the Lean `String` type and the `Error` type above. -/
inductive Val where
  | Signed (i : Int)
  | Unsigned (value : Nat) (radix : Nat)
  | Enum (i : Nat) (s : String)
  | Str (s : String)
  | Address (bytes : List Nat) (encoded : String)
  | Subpacket (children : List (String × Except Error Val))
  | Bytes (bytes : List Nat)
  | Err (e : Error)
  | Warning (e : Error)

/-- `type NamedValue` (line 248): a name paired with a Val-or-Error outcome. -/
def NamedValue : Type := String × Except Error Val

/-- The string of `n` spaces: `std::iter::repeat(" ").take(n).collect()`
as used at line 160 with `n = 2 * indent_level`. -/
def spaces (n : Nat) : String := String.mk (List.replicate n ' ')

/-- The Rust `format!["{:02x}", b]`: lowercase hexadecimal, zero-padded to
at least two digits. -/
def hex02 (b : Nat) : String :=
  let s := String.mk (Nat.toDigits 16 b)
  if s.length < 2 then "0" ++ s else s

/-- The Rust `format!["{:b}", v]`: binary digits, no prefix. -/
def binString (v : Nat) : String := String.mk (Nat.toDigits 2 v)

/-- The Rust `format!["{:o}", v]`: octal digits, no prefix. -/
def octString (v : Nat) : String := String.mk (Nat.toDigits 8 v)

mutual

/-- Embedding of `Val::pretty_print` (lines 157-206), arm for arm.
The `Subpacket` arm builds `"\n"` plus the child lines joined by
`"\n"`; the iterator chain `values.into_iter().map(...).join("\n")`
is the recursive helper `renderedChildren` below. -/
def Val.pretty_print : Val → Nat → String
  | .Subpacket values, indent_level =>
      let indent := spaces (2 * indent_level)
      "\n" ++ String.intercalate "\n" (renderedChildren values indent indent_level)
  | .Signed i, _ => toString i
  | .Unsigned value radix, _ =>
      match radix with
      | 2 => binString value
      | 8 => octString value
      | 10 => toString value
      | 16 => "0x" ++ String.mk (Nat.toDigits 16 value)
      | _ => toString value ++ " (base " ++ toString radix ++ ")"
  | .Enum i s, _ => toString i ++ " (" ++ s ++ ")"
  | .Str s, _ => s
  | .Address _ encoded, _ => encoded
  | .Bytes bytes, _ =>
      let s := toString bytes.length ++ " B ["
      let to_print := if bytes.length < 16 then bytes else bytes.take 16
      let s := to_print.foldl (fun s b => s ++ " " ++ hex02 b) s
      let s := if bytes.length > 16 then s ++ " ..." else s
      s ++ " ]"
  | .Warning w, _ => "Warning: " ++ w.display
  | .Err e, _ => "Error: " ++ e.display

/-- The child lines of a `Subpacket` (lines 162-171): each child `(k, v)`
becomes `format!["{}{}: ", indent, k]` followed by its rendering. -/
def renderedChildren : List (String × Except Error Val) → String → Nat → List String
  | [], _, _ => []
  | (k, v) :: rest, indent, indent_level =>
      (indent ++ k ++ ": " ++ renderChild v indent_level)
        :: renderedChildren rest indent indent_level

/-- Rendering of one child outcome (lines 165-168): `Ok(val)` recurses at
`indent_level + 1`, `Err(e)` becomes `<< Error: e >>`. -/
def renderChild : Except Error Val → Nat → String
  | .ok val, indent_level => val.pretty_print (indent_level + 1)
  | .error e, _ => "<< Error: " ++ e.display ++ " >>"

end

/-- The two byte orders of the `byteorder` crate usable as the `E`
parameter of `signed`/`unsigned`. -/
inductive ByteOrderE where
  | BigEndian
  | LittleEndian
  deriving DecidableEq, Repr

/-- `E::read_u16(buf)` on an exactly-2-byte buffer `[b0, b1]`. -/
def read_u16 : ByteOrderE → Nat → Nat → Nat
  | .BigEndian, b0, b1 => b0 * 256 + b1
  | .LittleEndian, b0, b1 => b1 * 256 + b0

/-- `E::read_u32(buf)` on an exactly-4-byte buffer. -/
def read_u32 : ByteOrderE → Nat → Nat → Nat → Nat → Nat
  | .BigEndian, b0, b1, b2, b3 => ((b0 * 256 + b1) * 256 + b2) * 256 + b3
  | .LittleEndian, b0, b1, b2, b3 => ((b3 * 256 + b2) * 256 + b1) * 256 + b0

/-- `E::read_u64(buf)` on an exactly-8-byte buffer. -/
def read_u64 : ByteOrderE → Nat → Nat → Nat → Nat → Nat → Nat → Nat → Nat → Nat
  | .BigEndian, b0, b1, b2, b3, b4, b5, b6, b7 =>
      ((((((b0 * 256 + b1) * 256 + b2) * 256 + b3) * 256 + b4) * 256 + b5)
        * 256 + b6) * 256 + b7
  | .LittleEndian, b0, b1, b2, b3, b4, b5, b6, b7 =>
      ((((((b7 * 256 + b6) * 256 + b5) * 256 + b4) * 256 + b3) * 256 + b2)
        * 256 + b1) * 256 + b0

/-- Twos-complement reinterpretation of a `k`-bit unsigned value, used by
`E::read_i16`/`read_i32`/`read_i64` which read the unsigned value and cast. -/
def toSigned (k : Nat) (u : Nat) : Int :=
  if u < 2 ^ (k - 1) then (u : Int) else (u : Int) - 2 ^ k

/-- `E::read_i16(buf)`. -/
def read_i16 (e : ByteOrderE) (b0 b1 : Nat) : Int := toSigned 16 (read_u16 e b0 b1)

/-- `E::read_i32(buf)`. -/
def read_i32 (e : ByteOrderE) (b0 b1 b2 b3 : Nat) : Int :=
  toSigned 32 (read_u32 e b0 b1 b2 b3)

/-- `E::read_i64(buf)`. -/
def read_i64 (e : ByteOrderE) (b0 b1 b2 b3 b4 b5 b6 b7 : Nat) : Int :=
  toSigned 64 (read_u64 e b0 b1 b2 b3 b4 b5 b6 b7)

/-- The Rust `Option::ok_or`: turn an `Option` into an `Except` with the
given error for `none`. -/
def ok_or : Option α → ε → Except ε α
  | some a, _ => .ok a
  | none, e => .error e

/-- The `num::FromPrimitive` methods an unsigned target type `T` exposes
to `unsigned::<T, E>`: conversion from each unsigned width, `none` when
the value is not representable in `T`. -/
structure FromPrimU where
  from_u8 : Nat → Option Nat
  from_u16 : Nat → Option Nat
  from_u32 : Nat → Option Nat
  from_u64 : Nat → Option Nat

/-- The standard `FromPrimitive` instance of the `w`-bit unsigned integer
type: every conversion succeeds exactly when the value fits in `w` bits. -/
def uTarget (w : Nat) : FromPrimU :=
  let fit : Nat → Option Nat := fun x => if x < 2 ^ w then some x else none
  ⟨fit, fit, fit, fit⟩

/-- The `num::FromPrimitive` methods a signed target type `T` exposes to
`signed::<T, E>`: `from_u8` from an (unsigned!) byte value, and
conversion from each signed width. -/
structure FromPrimI where
  from_u8 : Nat → Option Int
  from_i16 : Int → Option Int
  from_i32 : Int → Option Int
  from_i64 : Int → Option Int

/-- The standard `FromPrimitive` instance of the `w`-bit signed integer
type: `from_u8 b` succeeds iff `b ≤ 2^(w-1) - 1`, `from_iK x` iff
`-2^(w-1) ≤ x < 2^(w-1)`. -/
def iTarget (w : Nat) : FromPrimI :=
  let fit : Int → Option Int :=
    fun x => if -(2 ^ (w - 1) : Int) ≤ x ∧ x < 2 ^ (w - 1) then some x else none
  ⟨fun b => fit (b : Int), fit, fit, fit⟩

/-- Embedding of `pub fn signed<T, E>(buffer: &[u8]) -> Result<T>`
(lines 255-270): dispatch on the buffer length, `ok_or` a conversion
error, and append `" (len B)"` to any error message before wrapping it
in `InvalidData`. -/
def signed (T : FromPrimI) (E : ByteOrderE) (buffer : List Nat) : Except Error Int :=
  let len := buffer.length
  let conversion_error := "Failed to convert integer"
  (match buffer with
    | [b0] => ok_or (T.from_u8 b0) conversion_error
    | [b0, b1] => ok_or (T.from_i16 (read_i16 E b0 b1)) conversion_error
    | [b0, b1, b2, b3] => ok_or (T.from_i32 (read_i32 E b0 b1 b2 b3)) conversion_error
    | [b0, b1, b2, b3, b4, b5, b6, b7] =>
        ok_or (T.from_i64 (read_i64 E b0 b1 b2 b3 b4 b5 b6 b7)) conversion_error
    | _ => .error "Invalid integer size"
  ).mapError (fun s => s ++ " (" ++ toString len ++ " B)")
   |>.mapError Error.InvalidData

/-- Embedding of `pub fn unsigned<T, E>(buffer: &[u8]) -> Result<T>`
(lines 276-291).  Both the conversion error and the invalid-size error
contain a literal, unsubstituted `\x7b\x7d` placeholder, exactly as the
Rust string literals do. -/
def unsigned (T : FromPrimU) (E : ByteOrderE) (buffer : List Nat) : Except Error Nat :=
  let len := buffer.length
  let conversion_error := "Failed to convert \x7b\x7d B integer"
  (match buffer with
    | [b0] => ok_or (T.from_u8 b0) conversion_error
    | [b0, b1] => ok_or (T.from_u16 (read_u16 E b0 b1)) conversion_error
    | [b0, b1, b2, b3] => ok_or (T.from_u32 (read_u32 E b0 b1 b2 b3)) conversion_error
    | [b0, b1, b2, b3, b4, b5, b6, b7] =>
        ok_or (T.from_u64 (read_u64 E b0 b1 b2 b3 b4 b5 b6 b7)) conversion_error
    | _ => .error "Invalid integer size: \x7b\x7d"
  ).mapError (fun s => s ++ " (" ++ toString len ++ " B)")
   |>.mapError Error.InvalidData

/-- Embedding of `struct RawBytes` (lines 295-298). -/
structure RawBytes where
  short_name : String
  full_name : String

/-- `RawBytes::boxed` (lines 302-308); boxing is identity in the embedding. -/
def RawBytes.boxed (short_name full_name : String) : RawBytes :=
  ⟨short_name, full_name⟩

/-- `RawBytes::unknown_protocol` (lines 310-315). -/
def RawBytes.unknown_protocol (description : String) : RawBytes :=
  ⟨"UNKNOWN", description⟩

/-- `impl Protocol for RawBytes`, `fn dissect` (lines 322-327): always
`Ok`, a single child `("raw data", Ok(Bytes(data)))`. -/
def RawBytes.dissect (_ : RawBytes) (data : List Nat) : Except Error Val :=
  .ok (Val.Subpacket [("raw data", .ok (Val.Bytes data))])

/-- `needle` occurs as a contiguous substring of `hay`. -/
def occursIn (needle hay : String) : Prop :=
  ∃ pre post : String, hay = pre ++ needle ++ post

/-- The standard fixed-width unsigned value of a byte buffer under a byte
order: the base-256 value of the digits, most significant first for big
endian, last for little endian.  Spec-side definition, to be compared
with what the `unsigned` decoder computes. -/
def fixedWidthValue (e : ByteOrderE) (buf : List Nat) : Nat :=
  match e with
  | .BigEndian => buf.foldl (fun a b => a * 256 + b) 0
  | .LittleEndian => buf.reverse.foldl (fun a b => a * 256 + b) 0

/- ------------------------------------------------------------------ -/
/- Helper lemmas                                                      -/
/- ------------------------------------------------------------------ -/

/-- On a buffer whose length is not a supported integer size, `signed`
produces exactly the invalid-size message with the length appended. -/
theorem signed_invalid_size (TI : FromPrimI) (Eo : ByteOrderE) (buffer : List Nat)
    (h : buffer.length ∉ ([1, 2, 4, 8] : List Nat)) :
    signed TI Eo buffer
      = .error (.InvalidData ("Invalid integer size" ++ " ("
          ++ toString buffer.length ++ " B)")) := by
  rcases buffer with _ | ⟨b0, _ | ⟨b1, _ | ⟨b2, _ | ⟨b3, _ | ⟨b4, _ | ⟨b5, _ |
    ⟨b6, _ | ⟨b7, _ | ⟨b8, rest⟩⟩⟩⟩⟩⟩⟩⟩⟩ <;>
    first
      | rfl
      | simp at h

/-- On a buffer whose length is not a supported integer size, `unsigned`
produces exactly the invalid-size message (with its stray placeholder)
and the length appended. -/
theorem unsigned_invalid_size (TU : FromPrimU) (Eo : ByteOrderE) (buffer : List Nat)
    (h : buffer.length ∉ ([1, 2, 4, 8] : List Nat)) :
    unsigned TU Eo buffer
      = .error (.InvalidData ("Invalid integer size: \x7b\x7d" ++ " ("
          ++ toString buffer.length ++ " B)")) := by
  rcases buffer with _ | ⟨b0, _ | ⟨b1, _ | ⟨b2, _ | ⟨b3, _ | ⟨b4, _ | ⟨b5, _ |
    ⟨b6, _ | ⟨b7, _ | ⟨b8, rest⟩⟩⟩⟩⟩⟩⟩⟩⟩ <;>
    first
      | rfl
      | simp at h

/-- Reduction of `unsigned` on a 1-byte buffer (definitional). -/
theorem unsigned_len1 (T : FromPrimU) (Eo : ByteOrderE) (b0 : Nat) :
    unsigned T Eo [b0]
      = Except.mapError Error.InvalidData
          (Except.mapError (fun s => s ++ " (" ++ toString (1 : Nat) ++ " B)")
            (ok_or (T.from_u8 b0) "Failed to convert \x7b\x7d B integer")) := rfl

/-- Reduction of `unsigned` on a 2-byte buffer (definitional). -/
theorem unsigned_len2 (T : FromPrimU) (Eo : ByteOrderE) (b0 b1 : Nat) :
    unsigned T Eo [b0, b1]
      = Except.mapError Error.InvalidData
          (Except.mapError (fun s => s ++ " (" ++ toString (2 : Nat) ++ " B)")
            (ok_or (T.from_u16 (read_u16 Eo b0 b1))
              "Failed to convert \x7b\x7d B integer")) := rfl

/-- Reduction of `unsigned` on a 4-byte buffer (definitional). -/
theorem unsigned_len4 (T : FromPrimU) (Eo : ByteOrderE) (b0 b1 b2 b3 : Nat) :
    unsigned T Eo [b0, b1, b2, b3]
      = Except.mapError Error.InvalidData
          (Except.mapError (fun s => s ++ " (" ++ toString (4 : Nat) ++ " B)")
            (ok_or (T.from_u32 (read_u32 Eo b0 b1 b2 b3))
              "Failed to convert \x7b\x7d B integer")) := rfl

/-- Reduction of `unsigned` on an 8-byte buffer (definitional). -/
theorem unsigned_len8 (T : FromPrimU) (Eo : ByteOrderE)
    (b0 b1 b2 b3 b4 b5 b6 b7 : Nat) :
    unsigned T Eo [b0, b1, b2, b3, b4, b5, b6, b7]
      = Except.mapError Error.InvalidData
          (Except.mapError (fun s => s ++ " (" ++ toString (8 : Nat) ++ " B)")
            (ok_or (T.from_u64 (read_u64 Eo b0 b1 b2 b3 b4 b5 b6 b7))
              "Failed to convert \x7b\x7d B integer")) := rfl

/-- `fixedWidthValue` on a 1-byte buffer is the byte itself. -/
theorem fixedWidthValue_one (Eo : ByteOrderE) (b0 : Nat) :
    fixedWidthValue Eo [b0] = b0 := by
  cases Eo <;> simp [fixedWidthValue]

/-- `fixedWidthValue` on a 2-byte buffer agrees with `read_u16`. -/
theorem fixedWidthValue_two (Eo : ByteOrderE) (b0 b1 : Nat) :
    fixedWidthValue Eo [b0, b1] = read_u16 Eo b0 b1 := by
  cases Eo <;> simp [fixedWidthValue, read_u16]

/-- `fixedWidthValue` on a 4-byte buffer agrees with `read_u32`. -/
theorem fixedWidthValue_four (Eo : ByteOrderE) (b0 b1 b2 b3 : Nat) :
    fixedWidthValue Eo [b0, b1, b2, b3] = read_u32 Eo b0 b1 b2 b3 := by
  cases Eo <;> simp [fixedWidthValue, read_u32]

/-- `fixedWidthValue` on an 8-byte buffer agrees with `read_u64`. -/
theorem fixedWidthValue_eight (Eo : ByteOrderE) (b0 b1 b2 b3 b4 b5 b6 b7 : Nat) :
    fixedWidthValue Eo [b0, b1, b2, b3, b4, b5, b6, b7]
      = read_u64 Eo b0 b1 b2 b3 b4 b5 b6 b7 := by
  cases Eo <;> simp [fixedWidthValue, read_u64]

/- ------------------------------------------------------------------ -/
/- Claims                                                             -/
/- ------------------------------------------------------------------ -/

/-- C1: for every byte buffer whose length is not in {1,2,4,8}, both
primitive decoders `signed` and `unsigned` (for any target integer type,
modelled by arbitrary `FromPrim` conversion structures, and either byte
order) return an `InvalidData` error whose message names the invalid
length; they are total functions, so they neither panic nor succeed. -/
theorem C1_invalid_size_both_decoders (TI : FromPrimI) (TU : FromPrimU)
    (Eo : ByteOrderE) (buffer : List Nat)
    (h : buffer.length ∉ ([1, 2, 4, 8] : List Nat)) :
    (∃ msg, signed TI Eo buffer = .error (.InvalidData msg)
        ∧ occursIn (toString buffer.length) msg) ∧
    (∃ msg, unsigned TU Eo buffer = .error (.InvalidData msg)
        ∧ occursIn (toString buffer.length) msg) :=
  ⟨⟨_, signed_invalid_size TI Eo buffer h,
      "Invalid integer size" ++ " (", " B)", rfl⟩,
   ⟨_, unsigned_invalid_size TU Eo buffer h,
      "Invalid integer size: \x7b\x7d" ++ " (", " B)", rfl⟩⟩

/-- Witness for C1 at the concrete 3-byte buffer `[1, 2, 3]` with the
16-bit targets and big-endian byte order. -/
theorem C1_witness :
    (∃ msg, signed (iTarget 16) ByteOrderE.BigEndian [1, 2, 3]
        = .error (.InvalidData msg) ∧ occursIn (toString ([1, 2, 3] : List Nat).length) msg) ∧
    (∃ msg, unsigned (uTarget 16) ByteOrderE.BigEndian [1, 2, 3]
        = .error (.InvalidData msg) ∧ occursIn (toString ([1, 2, 3] : List Nat).length) msg) :=
  C1_invalid_size_both_decoders (iTarget 16) (uTarget 16) ByteOrderE.BigEndian
    [1, 2, 3] (by decide)

/-- C2: on buffers of the supported lengths 1, 2, 4 and 8, `unsigned`
with the standard `w`-bit unsigned target succeeds with exactly the
standard fixed-width unsigned value of the bytes under the requested
byte order, whenever that value is representable in the target. -/
theorem C2_unsigned_standard_semantics (w : Nat) (Eo : ByteOrderE)
    (buffer : List Nat)
    (hlen : buffer.length ∈ ([1, 2, 4, 8] : List Nat))
    (hfit : fixedWidthValue Eo buffer < 2 ^ w) :
    unsigned (uTarget w) Eo buffer = .ok (fixedWidthValue Eo buffer) := by
  rcases buffer with _ | ⟨b0, _ | ⟨b1, _ | ⟨b2, _ | ⟨b3, _ | ⟨b4, _ | ⟨b5, _ |
    ⟨b6, _ | ⟨b7, _ | ⟨b8, rest⟩⟩⟩⟩⟩⟩⟩⟩⟩
  · simp at hlen
  · rw [unsigned_len1]
    rw [fixedWidthValue_one] at hfit ⊢
    simp [uTarget, ok_or, hfit, Except.mapError]
  · rw [unsigned_len2]
    rw [fixedWidthValue_two] at hfit ⊢
    simp [uTarget, ok_or, hfit, Except.mapError]
  · simp at hlen
  · rw [unsigned_len4]
    rw [fixedWidthValue_four] at hfit ⊢
    simp [uTarget, ok_or, hfit, Except.mapError]
  · simp at hlen
  · simp at hlen
  · simp at hlen
  · rw [unsigned_len8]
    rw [fixedWidthValue_eight] at hfit ⊢
    simp [uTarget, ok_or, hfit, Except.mapError]
  · simp at hlen

/-- Witness for C2: concrete scenario A, `unsigned::<u16, BigEndian>`
on `[0x01, 0x02]` succeeds with value 258. -/
theorem C2_witness :
    unsigned (uTarget 16) ByteOrderE.BigEndian [1, 2] = .ok 258 := by
  have h := C2_unsigned_standard_semantics 16 ByteOrderE.BigEndian [1, 2]
    (by decide) (by decide)
  rw [show fixedWidthValue ByteOrderE.BigEndian [1, 2] = 258 from rfl] at h
  exact h

/-- Counterexample to C3: `unsigned::<u16, BigEndian>([0x01])` does not
return an error at all — a 1-byte buffer is a supported size, so the
decoder succeeds with the value 1. -/
theorem C3_counterexample :
    unsigned (uTarget 16) ByteOrderE.BigEndian [1] = .ok 1 ∧
    ¬ ∃ e : Error, unsigned (uTarget 16) ByteOrderE.BigEndian [1] = .error e := by
  refine ⟨rfl, ?_⟩
  rintro ⟨e, he⟩
  have h0 : unsigned (uTarget 16) ByteOrderE.BigEndian [1] = .ok 1 := rfl
  rw [h0] at he
  exact Except.noConfusion he

/-- C3 (amended): `unsigned::<u16, BigEndian>` applied to the single-byte
buffer `[0x01]` succeeds with value 1 (length 1 is a supported size,
dispatched to the 8-bit read). -/
theorem C3_amended :
    unsigned (uTarget 16) ByteOrderE.BigEndian [1] = .ok 1 := rfl

/-- C4 (code evaluated at the failing input): the length-1 arm of
`signed` calls `T::from_u8(buffer[0])`, which zero-extends, so
`signed::<i64, BigEndian>([0xFF])` returns `Ok(255)` rather than the
sign-extended `-1` that the doc comment (parse as i8) and the spec
require; under either byte order.  Moreover `signed::<i8>([0xFF])`
fails with a conversion error even though 0xFF is a perfectly valid
1-byte two-complement value (-1) of the 8-bit signed type. -/
theorem C4_code_zero_extends :
    signed (iTarget 64) ByteOrderE.BigEndian [255] = .ok 255 ∧
    signed (iTarget 64) ByteOrderE.LittleEndian [255] = .ok 255 ∧
    signed (iTarget 8) ByteOrderE.BigEndian [255]
      = .error (.InvalidData ("Failed to convert integer (1 B)")) :=
  ⟨rfl, rfl, rfl⟩

/-- The recursive helper `renderedChildren` is exactly the `map` of the
per-child line builder, as in the Rust iterator chain. -/
theorem renderedChildren_eq_map (cs : List (String × Except Error Val))
    (ind : String) (l : Nat) :
    renderedChildren cs ind l
      = cs.map (fun kv => ind ++ kv.1 ++ ": " ++ renderChild kv.2 l) := by
  induction cs with
  | nil => rfl
  | cons head tail ih =>
      obtain ⟨k, v⟩ := head
      simp [renderedChildren, ih]

/-- `String.join` distributes over cons. -/
theorem join_cons (s : String) (l : List String) :
    String.join (s :: l) = s ++ String.join l := by
  have aux : ∀ (l : List String) (a b : String),
      List.foldl (fun r x => r ++ x) (a ++ b) l
        = a ++ List.foldl (fun r x => r ++ x) b l := by
    intro l
    induction l with
    | nil => intro a b; rfl
    | cons x xs ih => intro a b; simp only [List.foldl_cons, String.append_assoc, ih]
  show List.foldl (fun r x => r ++ x) ("" ++ s) l
      = s ++ List.foldl (fun r x => r ++ x) "" l
  rw [String.empty_append]
  calc List.foldl (fun r x => r ++ x) s l
      = List.foldl (fun r x => r ++ x) (s ++ "") l := by rw [String.append_empty]
    _ = s ++ List.foldl (fun r x => r ++ x) "" l := aux l s ""

/-- The hex-dump accumulation loop of the `Bytes` arm is the join of the
per-byte groups. -/
theorem foldl_hex_eq_join (l : List Nat) (s0 : String) :
    l.foldl (fun s b => s ++ " " ++ hex02 b) s0
      = s0 ++ String.join (l.map (fun b => " " ++ hex02 b)) := by
  induction l generalizing s0 with
  | nil =>
      show s0 = s0 ++ String.join []
      rw [show String.join [] = "" from rfl, String.append_empty]
  | cons b rest ih =>
      rw [List.foldl_cons, List.map_cons, join_cons, ih]
      simp [String.append_assoc]

set_option maxRecDepth 100000 in
/-- For a byte value (less than 256), `hex02` produces exactly two
lowercase hexadecimal digits. -/
theorem hex02_spec : ∀ b < 256, (hex02 b).length = 2 ∧
    ∀ c ∈ (hex02 b).toList, c ∈ "0123456789abcdef".toList := by decide

/-- Counterexample to C5: the raw-bytes fallback tree pretty-printed at
indent level 0 does not carry two leading spaces on its child line —
the `Subpacket` arm indents by `2 * indent_level`, not
`2 * (indent_level + 1)`. -/
theorem C5_counterexample :
    Val.pretty_print (Val.Subpacket [("raw data", .ok (Val.Bytes [0xDE, 0xAD]))]) 0
      ≠ "\n  raw data: 2 B [ de ad ]" := by decide

/-- C5 (amended): `pretty_print` of a `Subpacket` at `indent_level`
emits one entry per immediate child, each of the form
`<indent><name>: <rendered child>` with the indent being
`2 * indent_level` spaces (not `2 * (indent_level + 1)`) and the child
rendered at `indent_level + 1` (a failing child rendered as
`<< Error: <message> >>`); the raw-bytes fallback result for
`[0xDE, 0xAD]` pretty-printed at level 0 is the subpacket header
newline followed by `raw data: 2 B [ de ad ]` with no leading spaces. -/
theorem C5_subpacket_lines (children : List (String × Except Error Val)) (il : Nat) :
    Val.pretty_print (Val.Subpacket children) il
      = "\n" ++ String.intercalate "\n"
          (children.map (fun kv => spaces (2 * il) ++ kv.1 ++ ": " ++ renderChild kv.2 il)) ∧
    (renderedChildren children (spaces (2 * il)) il).length = children.length ∧
    Val.pretty_print (Val.Subpacket [("raw data", .ok (Val.Bytes [0xDE, 0xAD]))]) 0
      = "\nraw data: 2 B [ de ad ]" := by
  refine ⟨?_, ?_, ?_⟩
  · simp only [Val.pretty_print]
    rw [renderedChildren_eq_map]
  · rw [renderedChildren_eq_map, List.length_map]
  · rfl

/-- C6: `pretty_print` of a `Bytes` value renders the byte count and a
bracketed hex dump: one two-hex-digit group per byte for the first
`min len 16` bytes, and an ellipsis marker exactly when the buffer has
more than 16 bytes. -/
theorem C6_bytes_rendering (bytes : List Nat) (il : Nat)
    (hb : ∀ b ∈ bytes, b < 256) :
    ∃ groups : List String,
      groups.length = min bytes.length 16 ∧
      (∀ g ∈ groups, g.length = 2 ∧ ∀ c ∈ g.toList, c ∈ "0123456789abcdef".toList) ∧
      Val.pretty_print (Val.Bytes bytes) il
        = toString bytes.length ++ " B ["
            ++ String.join (groups.map (fun g => " " ++ g))
            ++ (if bytes.length > 16 then " ..." else "") ++ " ]" := by
  refine ⟨(bytes.take 16).map hex02, ?_, ?_, ?_⟩
  · rw [List.length_map, List.length_take, Nat.min_comm]
  · intro g hg
    rw [List.mem_map] at hg
    obtain ⟨b, hbmem, rfl⟩ := hg
    exact hex02_spec b (hb b (List.take_subset 16 bytes hbmem))
  · simp only [Val.pretty_print]
    have hto : (if bytes.length < 16 then bytes else bytes.take 16) = bytes.take 16 := by
      split
      · exact (List.take_of_length_le (by omega)).symm
      · rfl
    rw [hto, foldl_hex_eq_join, List.map_map]
    by_cases hlen : bytes.length > 16 <;>
      simp [hlen, String.append_assoc, String.append_empty, Function.comp_def]

/-- Witness for C6 at the concrete buffer `[0xDE, 0xAD]`. -/
theorem C6_witness :
    ∃ groups : List String,
      groups.length = min ([0xDE, 0xAD] : List Nat).length 16 ∧
      (∀ g ∈ groups, g.length = 2 ∧ ∀ c ∈ g.toList, c ∈ "0123456789abcdef".toList) ∧
      Val.pretty_print (Val.Bytes [0xDE, 0xAD]) 0
        = toString ([0xDE, 0xAD] : List Nat).length ++ " B ["
            ++ String.join (groups.map (fun g => " " ++ g))
            ++ (if ([0xDE, 0xAD] : List Nat).length > 16 then " ..." else "") ++ " ]" :=
  C6_bytes_rendering [0xDE, 0xAD] 0 (by decide)

/-- C7: the raw-bytes fallback dissector always succeeds, for every
`RawBytes` instance and every input (the empty buffer included),
yielding exactly a one-child `Subpacket` that stores the input bytes
verbatim under the name `raw data`. -/
theorem C7_fallback_dissect (r : RawBytes) (data : List Nat) :
    r.dissect data = .ok (Val.Subpacket [("raw data", .ok (Val.Bytes data))]) := rfl

/-- C8: the `Error` display is a fixed deterministic template:
`Underflow` renders subject, expected and actual lengths; `InvalidData`
renders its message verbatim behind the `invalid data: ` marker; the
concrete `Underflow 4 2 "length field"` message contains the subject
and both lengths; equal errors render equally. -/
theorem C8_error_display :
    (∀ (expected hve : Nat) (subject : String),
      Error.display (.Underflow expected hve subject)
        = "underflow: " ++ subject ++ " expected " ++ toString expected
            ++ " B, have " ++ toString hve) ∧
    (∀ msg : String, Error.display (.InvalidData msg) = "invalid data: " ++ msg) ∧
    occursIn "length field" (Error.display (.Underflow 4 2 "length field")) ∧
    occursIn "4" (Error.display (.Underflow 4 2 "length field")) ∧
    occursIn "2" (Error.display (.Underflow 4 2 "length field")) ∧
    (∀ e₁ e₂ : Error, e₁ = e₂ → Error.display e₁ = Error.display e₂) := by
  refine ⟨fun _ _ _ => rfl, fun _ => rfl, ?_, ?_, ?_, fun e₁ e₂ h => by rw [h]⟩
  · exact ⟨"underflow: ", " expected 4 B, have 2", by decide⟩
  · exact ⟨"underflow: length field expected ", " B, have 2", by decide⟩
  · exact ⟨"underflow: length field expected 4 B, have ", "", by decide⟩

/-- Witness for C8: the only hypothesis-bearing conjunct, determinism,
applied at a concrete error value. -/
theorem C8_witness :
    Error.display (Error.InvalidData "x") = Error.display (Error.InvalidData "x") :=
  C8_error_display.2.2.2.2.2 (Error.InvalidData "x") (Error.InvalidData "x") rfl

/-- C9: `pretty_print` of every `Subpacket` starts with a newline
character before any child line, and a `Subpacket` with no children
prints as exactly the one-character string of a newline. -/
theorem C9_subpacket_leading_newline :
    (∀ (children : List (String × Except Error Val)) (il : Nat),
      ∃ rest, Val.pretty_print (Val.Subpacket children) il = "\n" ++ rest) ∧
    (∀ il : Nat, Val.pretty_print (Val.Subpacket []) il = "\n") := by
  constructor
  · intro children il
    exact ⟨String.intercalate "\n" (renderedChildren children (spaces (2 * il)) il), rfl⟩
  · intro il
    rfl

/-- C10: the exact error strings of the primitive decoders: `unsigned`
leaves a literal unsubstituted placeholder in both its invalid-size
message (`Invalid integer size: \x7b\x7d (N B)`) and its conversion
failure message (`Failed to convert \x7b\x7d B integer (N B)`), whereas
`signed` produces `Invalid integer size (N B)` with no stray
placeholder. -/
theorem C10_exact_messages :
    (∀ (TU : FromPrimU) (TI : FromPrimI) (Eo : ByteOrderE) (buffer : List Nat),
      buffer.length ∉ ([1, 2, 4, 8] : List Nat) →
        unsigned TU Eo buffer = .error (.InvalidData
            ("Invalid integer size: \x7b\x7d (" ++ toString buffer.length ++ " B)")) ∧
        signed TI Eo buffer = .error (.InvalidData
            ("Invalid integer size (" ++ toString buffer.length ++ " B)"))) ∧
    (∀ (TU : FromPrimU) (Eo : ByteOrderE) (b0 b1 : Nat),
      TU.from_u16 (read_u16 Eo b0 b1) = none →
        unsigned TU Eo [b0, b1] = .error (.InvalidData
            "Failed to convert \x7b\x7d B integer (2 B)")) := by
  constructor
  · intro TU TI Eo buffer h
    exact ⟨unsigned_invalid_size TU Eo buffer h, signed_invalid_size TI Eo buffer h⟩
  · intro TU Eo b0 b1 h
    rw [unsigned_len2, h]
    rfl

/-- Witness for C10 at concrete inputs: a 3-byte buffer for the
invalid-size messages, and a 2-byte buffer whose 16-bit value 256 does
not fit the 8-bit target for the conversion message. -/
theorem C10_witness :
    unsigned (uTarget 16) ByteOrderE.BigEndian [1, 2, 3]
      = .error (.InvalidData "Invalid integer size: \x7b\x7d (3 B)") ∧
    signed (iTarget 16) ByteOrderE.BigEndian [1, 2, 3]
      = .error (.InvalidData "Invalid integer size (3 B)") ∧
    unsigned (uTarget 8) ByteOrderE.BigEndian [1, 0]
      = .error (.InvalidData "Failed to convert \x7b\x7d B integer (2 B)") := by
  have h1 := C10_exact_messages.1 (uTarget 16) (iTarget 16) ByteOrderE.BigEndian
    [1, 2, 3] (by decide)
  have h2 := C10_exact_messages.2 (uTarget 8) ByteOrderE.BigEndian 1 0 (by decide)
  exact ⟨h1.1, h1.2, h2⟩

end RShark
